import Mathlib

/-
Verification development for the bitpanda-wrapper client library.

The definitions below are a shallow embedding of the Python source:

  * src/api/objects/orders.py   (Side, Type, Time_In_Force, Order and its
    variants LimitOrder / StopOrder / MarketOrder / SuccessfulOrder,
    Order.as_dict, SuccessfulOrder.from_json)
  * src/api/account.py          (Account, Wallet, Account.from_json)
  * src/api/wallets.py          (CryptoWallet)
  * src/api/objects/currencies.py (Type as CurrencyType, Currency,
    CryptoCurrency, FiatCurrency)
  * src/api/__init__.py         (close_all_orders)

Python `None`-able string attributes are embedded as `Option String`;
dictionaries as insertion-ordered association lists (Python dicts preserve
insertion order and the dict literals involved have pairwise distinct keys);
Python `set` as an insertion-ordered duplicate-free list (`set.add` keeps the
already-present element when an equal one is added, so the first insertion
wins). Exceptions raised by dictionary / enum-name lookup (`KeyError`) are
embedded with `Except`.
-/

namespace Bitpanda

/-- A Python value as it appears in the serialized order dictionaries and in
decoded JSON payloads: a string, a boolean, a list, or `None`. -/
inductive PyVal where
| str (s : String)
| bool (b : Bool)
| list (xs : List PyVal)
| none

/-- Embeds `class Side(Enum)` of src/api/objects/orders.py lines 4-6. -/
inductive Side where
| BUY
| SELL
deriving DecidableEq

/-- The `.value` of a `Side` member (both members have value equal to their
name). -/
def Side.value : Side → String
| .BUY => "BUY"
| .SELL => "SELL"

/-- Embeds `class Type(Enum)` of src/api/objects/orders.py lines 9-12
(named `OrderType` here because `Type` is reserved in Lean). -/
inductive OrderType where
| LIMIT
| MARKET
| STOP
deriving DecidableEq

/-- The `.value` of a `Type` member. -/
def OrderType.value : OrderType → String
| .LIMIT => "LIMIT"
| .MARKET => "MARKET"
| .STOP => "STOP"

/-- Embeds `class Time_In_Force(Enum)` of src/api/objects/orders.py lines
15-20.  Member `NONE` has value `None`, hence `value` returns an option. -/
inductive Time_In_Force where
| GOOD_TILL_CANCELLED
| GOOD_TILL_TIME
| IMMEDIATE_OR_CANCELLED
| FILL_OR_KILL
| NONE
deriving DecidableEq

/-- The `.value` of a `Time_In_Force` member; `NONE.value` is Python `None`. -/
def Time_In_Force.value : Time_In_Force → Option String
| .GOOD_TILL_CANCELLED => some "GOOD_TILL_CANCELLED"
| .GOOD_TILL_TIME => some "GOOD_TILL_TIME"
| .IMMEDIATE_OR_CANCELLED => some "IMMEDIATE_OR_CANCELLED"
| .FILL_OR_KILL => some "FILL_OR_KILL"
| .NONE => Option.none

/-- Exceptions the embedded code can raise.  `keyError` embeds Python's
`KeyError`, raised both by `json['k']` on a missing key and by enum name
lookup `Side[s]` on an unknown name, carrying the offending key.
`typeError` is an embedding restriction: the source stores JSON values into
`str`-hinted fields unchecked, while this embedding types those fields as
`String` and rejects non-string values; no claim exercises such a payload.
`deserializationError` is the spec's `DeserializationError` kind, included so
that statements about it can be made: the source never defines or raises any
such error. -/
inductive PyErr where
| keyError (key : String)
| typeError (expected : String)
| deserializationError (msg : String)

/-- Whether an `Except PyErr` result is the spec's `DeserializationError`. -/
def isDeserializationError : Except PyErr α → Bool
| .error (.deserializationError _) => true
| _ => false

/-- Extract the string out of a `PyVal`, per the `str` type hints on
`SuccessfulOrder.__init__` (see `PyErr.typeError`). -/
def PyVal.expectStr : PyVal → Except PyErr String
| .str s => .ok s
| _ => .error (.typeError "str")

/-- Python enum name lookup `Side[name]` (KeyError on unknown name). -/
def Side.fromName : String → Except PyErr Side
| "BUY" => .ok .BUY
| "SELL" => .ok .SELL
| s => .error (.keyError s)

/-- Python enum name lookup `Type[name]`. -/
def OrderType.fromName : String → Except PyErr OrderType
| "LIMIT" => .ok .LIMIT
| "MARKET" => .ok .MARKET
| "STOP" => .ok .STOP
| s => .error (.keyError s)

/-- Python enum name lookup `Time_In_Force[name]` (the member named `NONE`
is a legitimate lookup target). -/
def Time_In_Force.fromName : String → Except PyErr Time_In_Force
| "GOOD_TILL_CANCELLED" => .ok .GOOD_TILL_CANCELLED
| "GOOD_TILL_TIME" => .ok .GOOD_TILL_TIME
| "IMMEDIATE_OR_CANCELLED" => .ok .IMMEDIATE_OR_CANCELLED
| "FILL_OR_KILL" => .ok .FILL_OR_KILL
| "NONE" => .ok .NONE
| s => .error (.keyError s)

/-- Python dictionary read `d[k]` on an association list, first match
(keys of the dictionaries involved are pairwise distinct). -/
def dictGet : List (String × PyVal) → String → Option PyVal
| [], _ => Option.none
| kv :: rest, k => if kv.1 = k then some kv.2 else dictGet rest k

/-- Python dictionary read `d[k]` raising `KeyError` on a missing key. -/
def dictGetE (json : List (String × PyVal)) (k : String) : Except PyErr PyVal :=
match dictGet json k with
| some v => .ok v
| Option.none => .error (.keyError k)

/-- Embeds `class Order`, src/api/objects/orders.py lines 88-105: the
attributes set by `Order.__init__`, with Python `None`-able `str` parameters
as `Option String`. -/
structure Order where
instrument_code : String
type : OrderType
side : Side
amount : String
price : Option String
client_id : Option String
time_in_force : Time_In_Force
expire_after : Option String
is_post_only : Bool
trigger_price : Option String
order_id : Option String
account_id : Option String
time : Option String
filled_amount : Option String

/-- `Order.__init__` (src/api/objects/orders.py lines 88-105) with all
parameters explicit, in source order; callers supply the Python defaults
(`None`, `Time_In_Force.NONE`, `False`) for parameters they do not pass. -/
def Order.new (instrument_code : String) (type : OrderType) (side : Side)
    (amount : String) (price client_id : Option String)
    (time_in_force : Time_In_Force) (expire_after : Option String)
    (is_post_only : Bool)
    (trigger_price order_id account_id time filled_amount : Option String) :
    Order :=
⟨instrument_code, type, side, amount, price, client_id, time_in_force,
 expire_after, is_post_only, trigger_price, order_id, account_id, time,
 filled_amount⟩

/-- The dict literal `dictionary` built by `Order.as_dict`
(src/api/objects/orders.py lines 108-123), in source key order, before the
`None`-filtering comprehension: each key paired with the attribute's value,
`Option.none` standing for Python `None`.  Enum attributes contribute their
`.value`; `is_post_only` is a `bool`, never `None`. -/
def Order.entries (o : Order) : List (String × Option PyVal) :=
[("instrument_code", some (PyVal.str o.instrument_code)),
 ("type", some (PyVal.str o.type.value)),
 ("side", some (PyVal.str o.side.value)),
 ("amount", some (PyVal.str o.amount)),
 ("price", o.price.map PyVal.str),
 ("client_id", o.client_id.map PyVal.str),
 ("time_in_force", o.time_in_force.value.map PyVal.str),
 ("expire_after", o.expire_after.map PyVal.str),
 ("is_post_only", some (PyVal.bool o.is_post_only)),
 ("trigger_price", o.trigger_price.map PyVal.str),
 ("order_id", o.order_id.map PyVal.str),
 ("account_id", o.account_id.map PyVal.str),
 ("time", o.time.map PyVal.str),
 ("filled_amount", o.filled_amount.map PyVal.str)]

/-- `Order.as_dict` (src/api/objects/orders.py lines 107-125): the dict
comprehension `{k: v for k, v in dictionary.items() if v is not None}`. -/
def Order.as_dict (o : Order) : List (String × PyVal) :=
o.entries.filterMap fun kv => kv.2.map fun v => (kv.1, v)

/-- `LimitOrder.__init__` (src/api/objects/orders.py lines 128-134): calls
`Order.__init__` with `type=Type.LIMIT` and leaves `trigger_price`,
`order_id`, `account_id`, `time`, `filled_amount` at their `None` default. -/
def LimitOrder (instrument_code : String) (side : Side) (amount : String)
    (price client_id : Option String) (time_in_force : Time_In_Force)
    (expire_after : Option String) (is_post_only : Bool) : Order :=
Order.new instrument_code OrderType.LIMIT side amount price client_id
  time_in_force expire_after is_post_only Option.none Option.none Option.none
  Option.none Option.none

/-- `StopOrder.__init__` (src/api/objects/orders.py lines 137-141): calls
`Order.__init__` with `type=Type.STOP`, leaving `time_in_force`,
`expire_after`, `is_post_only` and the server fields at their defaults. -/
def StopOrder (instrument_code : String) (side : Side) (amount : String)
    (price client_id trigger_price : Option String) : Order :=
Order.new instrument_code OrderType.STOP side amount price client_id
  Time_In_Force.NONE Option.none false trigger_price Option.none Option.none
  Option.none Option.none

/-- `MarketOrder.__init__` (src/api/objects/orders.py lines 144-148): calls
`Order.__init__` with `type=Type.MARKET`, passing `price` straight through. -/
def MarketOrder (instrument_code : String) (side : Side) (amount : String)
    (price client_id : Option String) : Order :=
Order.new instrument_code OrderType.MARKET side amount price client_id
  Time_In_Force.NONE Option.none false Option.none Option.none Option.none
  Option.none Option.none

/-- `SuccessfulOrder.__init__` (src/api/objects/orders.py lines 152-156):
all parameters required, with `str` type hints, forwarded to
`Order.__init__`; `expire_after`, `is_post_only`, `trigger_price` stay at
their defaults. -/
def SuccessfulOrder (order_id client_id account_id instrument_code time :
    String) (side : Side) (price amount filled_amount : String)
    (type : OrderType) (time_in_force : Time_In_Force) : Order :=
Order.new instrument_code type side amount (some price) (some client_id)
  time_in_force Option.none false Option.none (some order_id)
  (some account_id) (some time) (some filled_amount)

/-- `SuccessfulOrder.from_json` (src/api/objects/orders.py lines 158-163).
The dictionary reads and enum lookups happen in the argument order of the
source call site, so the first failing access determines the raised
`KeyError`. -/
def SuccessfulOrder.from_json (json : List (String × PyVal)) :
    Except PyErr Order := do
let order_id ← (← dictGetE json "order_id").expectStr
let client_id ← (← dictGetE json "client_id").expectStr
let account_id ← (← dictGetE json "account_id").expectStr
let instrument_code ← (← dictGetE json "instrument_code").expectStr
let time ← (← dictGetE json "time").expectStr
let side ← Side.fromName (← (← dictGetE json "side").expectStr)
let price ← (← dictGetE json "price").expectStr
let amount ← (← dictGetE json "amount").expectStr
let filled_amount ← (← dictGetE json "filled_amount").expectStr
let type ← OrderType.fromName (← (← dictGetE json "type").expectStr)
let time_in_force ← Time_In_Force.fromName
  (← (← dictGetE json "time_in_force").expectStr)
return SuccessfulOrder order_id client_id account_id instrument_code time
  side price amount filled_amount type time_in_force

/-- Whether no key of a serialized dictionary is bound to Python `None`. -/
def hasNoNull : List (String × PyVal) → Bool
| [] => true
| (_, PyVal.none) :: _ => false
| _ :: rest => hasNoNull rest

/-- Whether an optional dictionary value, if present, is not Python `None`. -/
def notNullOpt : Option PyVal → Bool
| some PyVal.none => false
| _ => true

/-- Embeds `class Wallet` of src/api/account.py lines 43-92: the attributes
set by `Wallet.__init__`. -/
structure Wallet where
id : String
currency_code : String
change : String
available : String
locked : String
sequence : Int
time : String

/-- `Wallet.__eq__` (src/api/account.py lines 85-89) between two `Wallet`s
(the `isinstance` guard holds): `self.id == other.id`. -/
def Wallet.pyEq (a b : Wallet) : Bool :=
decide (a.id = b.id)

/-- `Wallet.__hash__` (src/api/account.py lines 91-92): `hash(self.id)`,
for any fixed Python string-hash function `h`. -/
def Wallet.pyHashWith (h : String → Int) (a : Wallet) : Int :=
h a.id

/-- Embeds `class CryptoWallet` of src/api/wallets.py lines 44-90. -/
structure CryptoWallet where
id : String
currency_code : String
change : String
available : String
locked : String
sequence : Int
time : String

/-- `CryptoWallet.__eq__` (src/api/wallets.py lines 83-87) between two
`CryptoWallet`s: `self.id == other.id`. -/
def CryptoWallet.pyEq (a b : CryptoWallet) : Bool :=
decide (a.id = b.id)

/-- `CryptoWallet.__hash__` (src/api/wallets.py lines 89-90). -/
def CryptoWallet.pyHashWith (h : String → Int) (a : CryptoWallet) : Int :=
h a.id

/-- One entry of the `json['balances']` list consumed by `Account.from_json`
(src/api/account.py lines 36-38): the keys the loop body reads. -/
structure BalanceEntry where
account_id : String
currency_code : String
change : String
available : String
locked : String
sequence : Int
time : String

/-- The `Wallet(...)` construction inside the loop of `Account.from_json`
(src/api/account.py lines 37-38): the wallet's `id` is the entry's
`account_id`. -/
def Wallet.of_entry (e : BalanceEntry) : Wallet :=
⟨e.account_id, e.currency_code, e.change, e.available, e.locked, e.sequence,
 e.time⟩

/-- Embeds `class Account` of src/api/account.py lines 1-19.  The Python
`set` of wallets is embedded as an insertion-ordered duplicate-free list. -/
structure Account where
id : String
wallets : List Wallet

/-- Python `wallets.add(w)` on a set of `Wallet`s: membership is decided by
`Wallet.__eq__` / `__hash__`, and adding an element equal to a present one
keeps the present element. -/
def setAdd (s : List Wallet) (w : Wallet) : List Wallet :=
if s.any fun x => Wallet.pyEq x w then s else s ++ [w]

/-- `Account.from_json` (src/api/account.py lines 21-40): folds
`wallets.add(Wallet(...))` over `json['balances']` starting from the empty
set, then builds `Account(json['account_id'], wallets)`. -/
def Account.from_json (account_id : String) (balances : List BalanceEntry) :
    Account :=
⟨account_id, balances.foldl (fun s e => setAdd s (Wallet.of_entry e)) []⟩

/-- Whether a wallet list is duplicate-free for `Wallet.__eq__`: no two
elements share an `id`. -/
def idsUnique : List Wallet → Bool
| [] => true
| w :: rest => !(rest.any fun x => Wallet.pyEq x w) && idsUnique rest

/-- Embeds `class Type(Enum)` of src/api/objects/currencies.py lines 4-6
(named `CurrencyType` here). -/
inductive CurrencyType where
| CRYPTO
| FIAT
deriving DecidableEq

/-- Embeds `class Currency` of src/api/objects/currencies.py lines 9-22:
`__init__` stores `code.upper()` and sets `type` to `None`; the subclasses
overwrite `type`. -/
structure Currency where
code : String
precision : Int
type : Option CurrencyType

/-- `Currency.__init__` (src/api/objects/currencies.py lines 10-13):
`self.code = code.upper()`, `self.type = None`. -/
def Currency.new (code : String) (precision : Int) : Currency :=
⟨code.toUpper, precision, Option.none⟩

/-- `CryptoCurrency.__init__` (src/api/objects/currencies.py lines 25-28):
`super().__init__` then `self.type = Type.CRYPTO`. -/
def CryptoCurrency (code : String) (precision : Int) : Currency :=
⟨code.toUpper, precision, some CurrencyType.CRYPTO⟩

/-- `FiatCurrency.__init__` (src/api/objects/currencies.py lines 31-34). -/
def FiatCurrency (code : String) (precision : Int) : Currency :=
⟨code.toUpper, precision, some CurrencyType.FIAT⟩

/-- `Currency.__eq__` (src/api/objects/currencies.py lines 15-19):
`self.code == other.code and self.type == other.type` (the `isinstance`
guard and Python's reflected-comparison fallback yield the same outcome as
this direct comparison for non-identical operands). -/
def Currency.pyEq (a b : Currency) : Bool :=
decide (a.code = b.code) && decide (a.type = b.type)

/-- The HTTP request a facade method hands to the `requests` collaborator:
method, url, headers and query params. -/
structure HttpRequest where
method : String
url : String
headers : List (String × String)
params : List (String × PyVal)

/-- `BASE_URL` of src/api/__init__.py line 10. -/
def BASE_URL : String :=
"https://api.exchange.bitpanda.com/public/v1"

/-- `Account.close_all_orders` (src/api/__init__.py lines 670-720): builds
the params dict `{'instrument_code': instrument_code, 'ids': list(ids)}`
with no validation of any kind and unconditionally issues a single
`requests.get` with it.  The function's result is the request issued. -/
def close_all_orders (api_key : String) (instrument_code : Option String)
    (ids : List String) : HttpRequest :=
⟨"GET", BASE_URL ++ "/account/orders",
 [("Content-Type", "application/json"), ("Accept", "application/json"),
  ("Authorization", "Bearer " ++ api_key)],
 [("instrument_code",
   match instrument_code with
   | some s => PyVal.str s
   | Option.none => PyVal.none),
  ("ids", PyVal.list (ids.map PyVal.str))]⟩

/-! ## Helper lemmas -/

/-- An optional value produced by mapping `PyVal.str` is never `None`. -/
theorem notNullOpt_map_str (x : Option String) :
    notNullOpt (x.map PyVal.str) = true := by
cases x <;> rfl

/-- The `None`-filtering comprehension of `as_dict` yields a dictionary with
no `None` value whenever every present entry value is not `None`. -/
theorem hasNoNull_filterMap (l : List (String × Option PyVal))
    (h : l.all (fun kv => notNullOpt kv.2) = true) :
    hasNoNull (l.filterMap fun kv => kv.2.map fun v => (kv.1, v)) = true := by
induction l with
| nil => rfl
| cons kv rest ih =>
  rw [List.all_cons, Bool.and_eq_true] at h
  rcases kv with ⟨k, v⟩
  match v, h.1 with
  | Option.none, _ => simpa using ih h.2
  | some (PyVal.str s), _ => simpa [hasNoNull] using ih h.2
  | some (PyVal.bool b), _ => simpa [hasNoNull] using ih h.2
  | some (PyVal.list xs), _ => simpa [hasNoNull] using ih h.2

/-- Every value of the pre-filter dictionary of `as_dict` is not `None` when
present. -/
theorem entries_all_notNull (o : Order) :
    (o.entries.all fun kv => notNullOpt kv.2) = true := by
simp [Order.entries, List.all_cons, notNullOpt_map_str, notNullOpt]

/-- Appending a wallet with a fresh id preserves duplicate-freedom. -/
theorem idsUnique_append (s : List Wallet) (w : Wallet)
    (hu : idsUnique s = true)
    (h : (s.any fun x => Wallet.pyEq x w) = false) :
    idsUnique (s ++ [w]) = true := by
induction s with
| nil => rfl
| cons y s' ih =>
  rw [idsUnique, Bool.and_eq_true] at hu
  rw [List.any_cons, Bool.or_eq_false_iff] at h
  have h1 : (s'.any fun x => Wallet.pyEq x y) = false := by
    have := hu.1
    simpa using this
  have h2 : Wallet.pyEq w y = false := by
    have h3 : ¬(y.id = w.id) := by simpa [Wallet.pyEq] using h.1
    simp [Wallet.pyEq]
    exact fun hh => h3 hh.symm
  rw [List.cons_append, idsUnique, Bool.and_eq_true]
  constructor
  · simp [List.any_append, h1, h2]
  · exact ih hu.2 h.2

/-- Python `set.add` preserves duplicate-freedom of the wallet set. -/
theorem idsUnique_setAdd (s : List Wallet) (w : Wallet)
    (hu : idsUnique s = true) : idsUnique (setAdd s w) = true := by
by_cases hany : (s.any fun x => Wallet.pyEq x w) = true
· rw [setAdd, if_pos hany]
  exact hu
· rw [setAdd, if_neg hany]
  exact idsUnique_append s w hu (by simpa using hany)

/-- The wallet-building fold of `Account.from_json` preserves
duplicate-freedom. -/
theorem idsUnique_fold (bal : List BalanceEntry) :
    ∀ s, idsUnique s = true →
      idsUnique (bal.foldl (fun s e => setAdd s (Wallet.of_entry e)) s) = true := by
induction bal with
| nil => intro s hu; exact hu
| cons e rest ih =>
  intro s hu
  exact ih _ (idsUnique_setAdd _ _ hu)

/-- `orElse` with a constantly-`none` fallback is the identity. -/
theorem optOrElse_none (x : Option α) : (x.orElse fun _ => Option.none) = x := by
cases x <;> rfl

/-- `find?` over an append searches the left list first. -/
theorem find?_append_orElse (l₁ l₂ : List α) (p : α → Bool) :
    List.find? p (l₁ ++ l₂) = (List.find? p l₁).orElse fun _ => List.find? p l₂ := by
induction l₁ with
| nil => rfl
| cons a l ih =>
  cases ha : p a with
  | true =>
    rw [List.cons_append, List.find?_cons_of_pos _ ha, List.find?_cons_of_pos _ ha]
    rfl
  | false =>
    rw [List.cons_append, List.find?_cons_of_neg _ (by simp [ha]),
      List.find?_cons_of_neg _ (by simp [ha]), ih]

/-- Looking an id up after a `set.add`: an already-present wallet with that
id wins; otherwise the freshly added wallet is found if its id matches. -/
theorem find?_setAdd (s : List Wallet) (w : Wallet) (wid : String) :
    List.find? (fun x => decide (x.id = wid)) (setAdd s w) =
      (List.find? (fun x => decide (x.id = wid)) s).orElse
        (fun _ => if w.id = wid then some w else Option.none) := by
by_cases hany : (s.any fun x => Wallet.pyEq x w) = true
· rw [setAdd, if_pos hany]
  cases hf : List.find? (fun x => decide (x.id = wid)) s with
  | some a => rfl
  | none =>
    by_cases hw : w.id = wid
    · exfalso
      rcases List.any_eq_true.1 hany with ⟨x, hxs, hxw⟩
      have hxid : x.id = w.id := by simpa [Wallet.pyEq] using hxw
      have hne := List.find?_eq_none.1 hf x hxs
      simp at hne
      exact hne (hxid.trans hw)
    · simp [hw]
· rw [setAdd, if_neg hany]
  rw [find?_append_orElse]
  by_cases hw : w.id = wid
  · rw [List.find?_cons_of_pos _ (by simpa using hw)]
    simp [hw]
  · rw [List.find?_cons_of_neg _ (by simpa using hw)]
    simp [hw]

/-- Invariant of the wallet-building fold of `Account.from_json`: looking an
id up in the folded set finds the wallet already in the accumulator, else
the wallet built from the first balance entry bearing that id. -/
theorem find?_fold (bal : List BalanceEntry) :
    ∀ (s : List Wallet) (wid : String),
      List.find? (fun x => decide (x.id = wid))
          (bal.foldl (fun s e => setAdd s (Wallet.of_entry e)) s) =
        (List.find? (fun x => decide (x.id = wid)) s).orElse
          (fun _ => (List.find? (fun e => decide (e.account_id = wid)) bal).map
            Wallet.of_entry) := by
induction bal with
| nil =>
  intro s wid
  exact (optOrElse_none _).symm
| cons e rest ih =>
  intro s wid
  rw [List.foldl_cons, ih, find?_setAdd]
  by_cases he : e.account_id = wid
  · rw [List.find?_cons_of_pos _ (by simpa using he)]
    cases hf : List.find? (fun x => decide (x.id = wid)) s with
    | some a => rfl
    | none =>
      have hw : (Wallet.of_entry e).id = wid := he
      simp [hw]
  · rw [List.find?_cons_of_neg _ (by simpa using he)]
    cases hf : List.find? (fun x => decide (x.id = wid)) s with
    | some a => rfl
    | none =>
      have hw : ¬((Wallet.of_entry e).id = wid) := he
      simp [hw]

/-! ## Claims -/

/-- Claim C1, counterexample: a Market order constructed with the price
string "30000" serializes with a `price` key bound to that string, so the
claim that the serialized map of a Market order never contains a `price`
key is false. -/
theorem claim_C1_counterexample :
    dictGet (Order.as_dict
        (MarketOrder "BTC_EUR" Side.BUY "1.5" (some "30000") Option.none))
      "price" = some (PyVal.str "30000") := rfl

/-- Claim C1, amended: for every Market order, the serialized map contains
the `price` key, bound to the supplied price string, exactly when a price
was supplied at construction; supplying `None` leaves the key absent.  The
client does not strip a supplied price (the exchange is documented to
ignore it server-side). -/
theorem claim_C1_theorem : ∀ (ic a : String) (s : Side) (p c : Option String),
    dictGet (Order.as_dict (MarketOrder ic s a p c)) "price" = p.map PyVal.str := by
intro ic a s p c
cases p <;> cases c <;> rfl

/-- Claim C2, counterexample: the serialized map of a plain Market order
contains the key `is_post_only` (bound to `False`), although that key is
not applicable to the Market variant, so the claim that inapplicable keys
are always absent is false. -/
theorem claim_C2_counterexample :
    dictGet (Order.as_dict
        (MarketOrder "BTC_EUR" Side.BUY "1.5" Option.none Option.none))
      "is_post_only" = some (PyVal.bool false) := rfl

/-- Claim C2, amended: for every order, `as_dict` omits exactly the keys
whose attribute is `None`, so no key is ever bound to a null placeholder,
and enum fields serialize to their wire strings; however `is_post_only`,
being a boolean that defaults to `False` rather than `None`, is present in
every serialized order regardless of the variant. -/
theorem claim_C2_theorem : ∀ o : Order,
    hasNoNull o.as_dict = true ∧
    ("is_post_only", PyVal.bool o.is_post_only) ∈ o.as_dict ∧
    ("type", PyVal.str o.type.value) ∈ o.as_dict ∧
    ("side", PyVal.str o.side.value) ∈ o.as_dict := by
intro o
refine ⟨hasNoNull_filterMap _ (entries_all_notNull o), ?_, ?_, ?_⟩
· exact List.mem_filterMap.2
    ⟨("is_post_only", some (PyVal.bool o.is_post_only)), by simp [Order.entries], rfl⟩
· exact List.mem_filterMap.2
    ⟨("type", some (PyVal.str o.type.value)), by simp [Order.entries], rfl⟩
· exact List.mem_filterMap.2
    ⟨("side", some (PyVal.str o.side.value)), by simp [Order.entries], rfl⟩

/-- Claim C3, counterexample: a Limit order with
`time_in_force = GOOD_TILL_TIME` and no `expire_after` serializes without
any failure — `as_dict` returns this complete dictionary, which simply
lacks the `expire_after` key — so the claim that serialization fails
validation in that state is false. -/
theorem claim_C3_counterexample :
    Order.as_dict (LimitOrder "BTC_EUR" Side.BUY "1.0" (some "30000")
        Option.none Time_In_Force.GOOD_TILL_TIME Option.none false) =
      [("instrument_code", PyVal.str "BTC_EUR"), ("type", PyVal.str "LIMIT"),
       ("side", PyVal.str "BUY"), ("amount", PyVal.str "1.0"),
       ("price", PyVal.str "30000"),
       ("time_in_force", PyVal.str "GOOD_TILL_TIME"),
       ("is_post_only", PyVal.bool false)] := rfl

/-- Claim C3, amended: Limit orders with `time_in_force = GOOD_TILL_TIME`
undergo no validation; serialization always succeeds, and the resulting map
contains the `expire_after` key, bound to the supplied string, exactly when
`expire_after` was supplied, omitting the key when it is absent. -/
theorem claim_C3_theorem :
    ∀ (ic a : String) (s : Side) (p c ea : Option String) (ipo : Bool),
    dictGet (Order.as_dict
        (LimitOrder ic s a p c Time_In_Force.GOOD_TILL_TIME ea ipo))
      "expire_after" = ea.map PyVal.str := by
intro ic a s p c ea ipo
cases p <;> cases c <;> cases ea <;> rfl

/-- Claim C4, counterexample: a Stop order constructed without a
`trigger_price` is accepted and serializes without any failure — `as_dict`
returns this complete dictionary, which simply lacks the `trigger_price`
key — so the claim that construction or serialization fails is false. -/
theorem claim_C4_counterexample :
    Order.as_dict (StopOrder "BTC_EUR" Side.SELL "2.0" (some "25000")
        Option.none Option.none) =
      [("instrument_code", PyVal.str "BTC_EUR"), ("type", PyVal.str "STOP"),
       ("side", PyVal.str "SELL"), ("amount", PyVal.str "2.0"),
       ("price", PyVal.str "25000"),
       ("is_post_only", PyVal.bool false)] := rfl

/-- Claim C4, amended: Stop orders undergo no validation; construction and
serialization always succeed, and the resulting map contains the
`trigger_price` key, bound to the supplied string, exactly when a
trigger price was supplied. -/
theorem claim_C4_theorem :
    ∀ (ic a : String) (s : Side) (p c tp : Option String),
    dictGet (Order.as_dict (StopOrder ic s a p c tp)) "trigger_price" =
      tp.map PyVal.str := by
intro ic a s p c tp
cases p <;> cases c <;> cases tp <;> rfl

/-- Claim C5, counterexample: a `SuccessfulOrder` whose `time_in_force` is
the `NONE` placeholder does not round-trip — its serialization omits the
`time_in_force` key (the member's value is `None`), so deserialization
raises `KeyError` instead of yielding any `SuccessfulOrder` — refuting the
claim for every `SuccessfulOrder` value. -/
theorem claim_C5_counterexample :
    SuccessfulOrder.from_json (Order.as_dict
        (SuccessfulOrder "oid1" "cid1" "aid1" "BTC_EUR" "t1" Side.BUY
          "30000" "1.5" "0.0" OrderType.LIMIT Time_In_Force.NONE)) =
      Except.error (PyErr.keyError "time_in_force") := rfl

/-- Claim C5, amended: for every `SuccessfulOrder` whose `time_in_force` is
not the `NONE` placeholder, deserializing the map produced by serializing
it yields a `SuccessfulOrder` equal to the original in every field, the
server-assigned ones included (they are serialized and read back like all
others); with `time_in_force = NONE` the round-trip instead fails with
`KeyError`. -/
theorem claim_C5_theorem :
    ∀ (oid cid aid ic t p a fa : String) (s : Side) (ty : OrderType)
      (tif : Time_In_Force), tif ≠ Time_In_Force.NONE →
    SuccessfulOrder.from_json
        (Order.as_dict (SuccessfulOrder oid cid aid ic t s p a fa ty tif)) =
      Except.ok (SuccessfulOrder oid cid aid ic t s p a fa ty tif) := by
intro oid cid aid ic t p a fa s ty tif h
cases s <;> cases ty <;> cases tif <;> first | rfl | exact absurd rfl h

/-- Claim C5, witness: the round-trip theorem applied at a concrete
`SuccessfulOrder` with `time_in_force = GOOD_TILL_CANCELLED`. -/
theorem claim_C5_witness :
    Time_In_Force.GOOD_TILL_CANCELLED ≠ Time_In_Force.NONE ∧
    SuccessfulOrder.from_json (Order.as_dict
        (SuccessfulOrder "o1" "c1" "a1" "BTC_EUR" "t1" Side.BUY "30000"
          "1.5" "0.0" OrderType.LIMIT Time_In_Force.GOOD_TILL_CANCELLED)) =
      Except.ok (SuccessfulOrder "o1" "c1" "a1" "BTC_EUR" "t1" Side.BUY
        "30000" "1.5" "0.0" OrderType.LIMIT
        Time_In_Force.GOOD_TILL_CANCELLED) :=
⟨by decide,
 claim_C5_theorem "o1" "c1" "a1" "BTC_EUR" "t1" "30000" "1.5" "0.0" Side.BUY
   OrderType.LIMIT Time_In_Force.GOOD_TILL_CANCELLED (by decide)⟩

/-- Claim C6, counterexample: deserializing a payload whose `side` is the
unrecognized string "HOLD" raises Python's `KeyError` carrying "HOLD" — the
code defines no `DeserializationError`, so no `DeserializationError` is
raised — refuting the claim that a `DeserializationError` is raised. -/
theorem claim_C6_counterexample :
    SuccessfulOrder.from_json
        [("order_id", PyVal.str "o"), ("client_id", PyVal.str "c"),
         ("account_id", PyVal.str "a"),
         ("instrument_code", PyVal.str "BTC_EUR"),
         ("time", PyVal.str "t"), ("side", PyVal.str "HOLD")] =
      Except.error (PyErr.keyError "HOLD") ∧
    isDeserializationError (SuccessfulOrder.from_json
        [("order_id", PyVal.str "o"), ("client_id", PyVal.str "c"),
         ("account_id", PyVal.str "a"),
         ("instrument_code", PyVal.str "BTC_EUR"),
         ("time", PyVal.str "t"), ("side", PyVal.str "HOLD")]) = false :=
⟨rfl, rfl⟩

/-- Claim C6, amended: for every payload carrying the required earlier
fields and `"side": "HOLD"`, deserialization fails by raising `KeyError`
with the unrecognized name (a failed `Side[...]` enum lookup) rather than
producing an order with a null side; the code defines no
`DeserializationError` type, so that is the error actually raised. -/
theorem claim_C6_theorem : ∀ (oid cid aid ic t : String),
    SuccessfulOrder.from_json
        [("order_id", PyVal.str oid), ("client_id", PyVal.str cid),
         ("account_id", PyVal.str aid), ("instrument_code", PyVal.str ic),
         ("time", PyVal.str t), ("side", PyVal.str "HOLD")] =
      Except.error (PyErr.keyError "HOLD") := by
intro oid cid aid ic t
rfl

/-- Claim C7, counterexample: calling `close_all_orders` with both an
instrument code and two order ids does not fail — it issues exactly this
GET request, whose params carry both filters — refuting the claim that the
call fails fast before any HTTP request is issued. -/
theorem claim_C7_counterexample :
    close_all_orders "key" (some "BTC_EUR") ["a", "b"] =
      ⟨"GET", "https://api.exchange.bitpanda.com/public/v1/account/orders",
       [("Content-Type", "application/json"),
        ("Accept", "application/json"),
        ("Authorization", "Bearer key")],
       [("instrument_code", PyVal.str "BTC_EUR"),
        ("ids", PyVal.list [PyVal.str "a", PyVal.str "b"])]⟩ := rfl

/-- Claim C7, amended: `close_all_orders` performs no validation of its
filters: for every API key, instrument code and id list — both filters
supplied included — it issues its single GET request, whose params carry
both the instrument code and the ids. -/
theorem claim_C7_theorem : ∀ (key ic : String) (ids : List String),
    ("instrument_code", PyVal.str ic) ∈
      (close_all_orders key (some ic) ids).params ∧
    ("ids", PyVal.list (ids.map PyVal.str)) ∈
      (close_all_orders key (some ic) ids).params ∧
    (close_all_orders key (some ic) ids).method = "GET" := by
intro key ic ids
exact ⟨List.mem_cons_self _ _, List.mem_cons_of_mem _ (List.mem_cons_self _ _),
  rfl⟩

/-- Claim C8: for both wallet classes, equality and hash depend only on the
`id` field — two wallets with equal ids are `__eq__`-equal and have equal
hashes for any string-hash function, whatever their other fields hold. -/
theorem claim_C8_theorem :
    (∀ a b : Wallet, a.id = b.id →
      Wallet.pyEq a b = true ∧
      ∀ h : String → Int, Wallet.pyHashWith h a = Wallet.pyHashWith h b) ∧
    (∀ a b : CryptoWallet, a.id = b.id →
      CryptoWallet.pyEq a b = true ∧
      ∀ h : String → Int,
        CryptoWallet.pyHashWith h a = CryptoWallet.pyHashWith h b) := by
constructor
· intro a b hid
  exact ⟨by simp [Wallet.pyEq, hid], fun h => by simp [Wallet.pyHashWith, hid]⟩
· intro a b hid
  exact ⟨by simp [CryptoWallet.pyEq, hid],
    fun h => by simp [CryptoWallet.pyHashWith, hid]⟩

/-- Claim C8, witness: two concrete wallets sharing the id "W1" but
differing in `available` compare equal and hash alike. -/
theorem claim_C8_witness :
    (Wallet.mk "W1" "BTC" "0" "1.0" "0" 1 "t1").available ≠
      (Wallet.mk "W1" "BTC" "0" "2.0" "0" 2 "t2").available ∧
    Wallet.pyEq (Wallet.mk "W1" "BTC" "0" "1.0" "0" 1 "t1")
      (Wallet.mk "W1" "BTC" "0" "2.0" "0" 2 "t2") = true ∧
    Wallet.pyHashWith (fun s => Int.ofNat s.length)
        (Wallet.mk "W1" "BTC" "0" "1.0" "0" 1 "t1") =
      Wallet.pyHashWith (fun s => Int.ofNat s.length)
        (Wallet.mk "W1" "BTC" "0" "2.0" "0" 2 "t2") ∧
    CryptoWallet.pyEq (CryptoWallet.mk "W1" "BTC" "0" "1.0" "0" 1 "t1")
      (CryptoWallet.mk "W1" "BTC" "0" "2.0" "0" 2 "t2") = true :=
⟨by decide,
 (claim_C8_theorem.1 (Wallet.mk "W1" "BTC" "0" "1.0" "0" 1 "t1")
   (Wallet.mk "W1" "BTC" "0" "2.0" "0" 2 "t2") rfl).1,
 (claim_C8_theorem.1 (Wallet.mk "W1" "BTC" "0" "1.0" "0" 1 "t1")
   (Wallet.mk "W1" "BTC" "0" "2.0" "0" 2 "t2") rfl).2 _,
 (claim_C8_theorem.2 (CryptoWallet.mk "W1" "BTC" "0" "1.0" "0" 1 "t1")
   (CryptoWallet.mk "W1" "BTC" "0" "2.0" "0" 2 "t2") rfl).1⟩

/-- Claim C9: a constructed `Currency` (plain, crypto or fiat) stores the
uppercased code, the subclasses record their kind, and two `Currency`
objects are `__eq__`-equal exactly when their codes agree and their kinds
agree (the kind being `None` for a plain `Currency`). -/
theorem claim_C9_theorem :
    (∀ (code : String) (prec : Int),
      (Currency.new code prec).code = code.toUpper ∧
      (CryptoCurrency code prec).code = code.toUpper ∧
      (FiatCurrency code prec).code = code.toUpper ∧
      (CryptoCurrency code prec).type = some CurrencyType.CRYPTO ∧
      (FiatCurrency code prec).type = some CurrencyType.FIAT) ∧
    (∀ a b : Currency,
      Currency.pyEq a b = true ↔ a.code = b.code ∧ a.type = b.type) := by
constructor
· intro code prec
  exact ⟨rfl, rfl, rfl, rfl, rfl⟩
· intro a b
  simp [Currency.pyEq]

/-- Claim C10: the wallet set built by `Account.from_json` never holds two
wallets with the same id, and looking any id up in it finds exactly the
wallet built from the first balance entry bearing that `account_id` in
input order — later entries with the same id are discarded, not merged. -/
theorem claim_C10_theorem : ∀ (aid : String) (bal : List BalanceEntry),
    idsUnique (Account.from_json aid bal).wallets = true ∧
    ∀ wid : String,
      List.find? (fun w => decide (w.id = wid))
          (Account.from_json aid bal).wallets =
        (List.find? (fun e => decide (e.account_id = wid)) bal).map
          Wallet.of_entry := by
intro aid bal
constructor
· exact idsUnique_fold bal [] rfl
· intro wid
  have hh := find?_fold bal [] wid
  simpa [Account.from_json] using hh

end Bitpanda
